import Mathlib

/-!
Verification of the Real-Time Predictive Maintenance Data Pipeline.

Shallow embedding of the two Python programs of the repository:

* `realtime_inference.py` — the MQTT message handler `on_message`, which
  parses a telemetry payload, runs a loaded classifier and prints a styled
  console alert.  Library calls (`payload.decode("utf-8")` + `json.loads`,
  and `model.predict`) are modelled as oracle arguments returning
  `Except`, mirroring the fact that their exceptions are caught by the
  handler's `try`/`except` blocks.  The handler itself is a total Lean
  function returning the list of printed lines together with the list of
  feature rows passed to the classifier (its invocation trace); totality
  models the source property that no exception escapes the handler.

* `generate_historical_data.py` — the synthetic dataset generator,
  parameterised by the random draws it consumes (the sampled anomaly
  index list of `rng.choice(n_rows, size=anomaly_count, replace=False)`
  and the per-class value streams of `rng.normal` / `rng.uniform`).

Real numbers of the source are embedded as `ℚ`.
-/

/-! ### JSON values (results of `json.loads`) -/

inductive Json where
  | jnull
  | jbool (b : Bool)
  | jnum (q : ℚ)
  | jstr (s : String)
  | jarr (elems : List Json)
  | jobj (fields : List (String × Json))

/-! ### Python `float()` coercion -/

def digVal (c : Char) : ℕ := c.toNat - 48

def natOfDigits (cs : List Char) : ℕ := cs.foldl (fun a c => a * 10 + digVal c) 0

/-- Unsigned decimal mantissa of a Python float literal: `"123"`, `"123."`,
`"123.45"` or `".45"`; returns the value and the unconsumed rest. -/
def parseMantissa (cs : List Char) : Option (ℚ × List Char) :=
  let ip := cs.takeWhile Char.isDigit
  let r1 := cs.dropWhile Char.isDigit
  match r1 with
  | '.' :: r2 =>
      let fp := r2.takeWhile Char.isDigit
      let r3 := r2.dropWhile Char.isDigit
      if ip.isEmpty && fp.isEmpty then none
      else some ((natOfDigits ip : ℚ) + (natOfDigits fp : ℚ) / ((10 : ℚ) ^ fp.length), r3)
  | _ => if ip.isEmpty then none else some ((natOfDigits ip : ℚ), r1)

/-- Optional exponent part after `e`/`E`: signed digit string. -/
def parseExpPart (cs : List Char) : Option ℤ :=
  match cs with
  | [] => none
  | c :: r =>
    let sd : ℤ × List Char := if c == '+' then (1, r) else if c == '-' then (-1, r) else (1, c :: r)
    if sd.2.isEmpty || !sd.2.all Char.isDigit then none
    else some (sd.1 * (natOfDigits sd.2 : ℤ))

def isSpaceChar (c : Char) : Bool := c == ' ' || c == '\t' || c == '\n' || c == '\r'

/-- Strip leading and trailing whitespace. -/
def trimChars (cs : List Char) : List Char :=
  ((cs.dropWhile isSpaceChar).reverse.dropWhile isSpaceChar).reverse

/-- Python `float(s)` on a string: strip whitespace, optional sign, decimal
mantissa, optional exponent.  `none` models the `ValueError` that the
handler catches. -/
def parseFloat (s : String) : Option ℚ :=
  let cs := trimChars s.data
  let sb : ℚ × List Char :=
    match cs with
    | '+' :: r => (1, r)
    | '-' :: r => (-1, r)
    | _ => (1, cs)
  match parseMantissa sb.2 with
  | none => none
  | some mr =>
    match mr.2 with
    | [] => some (sb.1 * mr.1)
    | 'e' :: r => (parseExpPart r).map (fun ex => sb.1 * mr.1 * (10 : ℚ) ^ ex)
    | 'E' :: r => (parseExpPart r).map (fun ex => sb.1 * mr.1 * (10 : ℚ) ^ ex)
    | _ => none

/-- Python `float(v)` on a JSON-decoded value: numbers pass through, booleans
coerce to 1/0, float-convertible strings parse, everything else raises
`TypeError`/`ValueError` (returned as `Except.error`, which `on_message`
catches). -/
def pyFloat (j : Json) : Except String ℚ :=
  match j with
  | .jnum q => .ok q
  | .jbool b => .ok (if b then 1 else 0)
  | .jstr s =>
    match parseFloat s with
    | some q => .ok q
    | none => .error "ValueError"
  | _ => .error "TypeError"

/-- Python `data[key]`: dictionary lookup.  `json.loads` keeps the last
binding of a duplicated key, hence the lookup over the reversed field list.
A missing key raises `KeyError`; indexing a non-dict raises `TypeError` —
both are in the caught exception tuple of the source. -/
def jsonIndex (j : Json) (key : String) : Except String Json :=
  match j with
  | .jobj fields =>
    match fields.reverse.lookup key with
    | some v => .ok v
    | none => .error "KeyError"
  | _ => .error "TypeError"

/-- `float(data[key])` — the field extraction of `on_message`. -/
def extractField (data : Json) (key : String) : Except String ℚ :=
  match jsonIndex data key with
  | .error e => .error e
  | .ok v => pyFloat v

instance : DecidableEq (Except String ℚ) := fun a b =>
  match a, b with
  | .ok x, .ok y => decidable_of_iff (x = y) (by simp)
  | .error x, .error y => decidable_of_iff (x = y) (by simp)
  | .ok _, .error _ => isFalse (by simp)
  | .error _, .ok _ => isFalse (by simp)

/-! ### Numeric coercions and rendering -/

/-- Python `int(x)` on a real scalar: truncation toward zero. -/
def pyInt (q : ℚ) : ℤ := if 0 ≤ q then ⌊q⌋ else ⌈q⌉

/-- Python `round(x)`: round half to even. -/
def pyRound (q : ℚ) : ℤ :=
  if q - ⌊q⌋ < 1/2 then ⌊q⌋
  else if 1/2 < q - ⌊q⌋ then ⌊q⌋ + 1
  else if ⌊q⌋ % 2 = 0 then ⌊q⌋ else ⌊q⌋ + 1

/-- Modelled from the spec: the claim's "round-to-nearest-int semantics" for
the coercion of the classifier's scalar prediction, to be compared with the
source's bare `int(prediction)` cast (`pyInt`, truncation toward zero). -/
def specRoundNearest (q : ℚ) : ℤ := round q

def padFrac (f : ℕ) : String := if f < 10 then "0" ++ toString f else toString f

/-- Python f-string `{x:.2f}`: render with exactly two decimal places,
rounding half to even. -/
def format2 (q : ℚ) : String :=
  let c := pyRound (q * 100)
  let sign := if c < 0 then "-" else ""
  sign ++ toString (c.natAbs / 100) ++ "." ++ padFrac (c.natAbs % 100)

/-! ### The message handler -/

def COLOR_RESET : String := "\x1b[0m"
def COLOR_GREEN : String := "\x1b[92m"
def COLOR_RED : String := "\x1b[91m"
def COLOR_BOLD : String := "\x1b[1m"

/-- The anomaly-styled alert line of `on_message`. -/
def anomalyText (temperature vibration : ℚ) : String :=
  COLOR_RED ++ COLOR_BOLD ++ "🚨 [ALERT] ANOMALY DETECTED! Machine failure imminent! Temp: "
    ++ format2 temperature ++ "°C, Vib: " ++ format2 vibration ++ " mm/s 🚨" ++ COLOR_RESET

/-- The normal-styled line of `on_message`. -/
def normalText (temperature vibration : ℚ) : String :=
  COLOR_GREEN ++ "[NORMAL]" ++ COLOR_RESET ++ " Temp: " ++ format2 temperature
    ++ "°C, Vib: " ++ format2 vibration ++ " mm/s"

/-- One console line printed by the handler: a styled alert (anomalous or
normal) from the final `print(msg_text)`, or a diagnostic log line from one
of the guard/`except` branches. -/
inductive OutLine where
  | alert (anomalous : Bool) (text : String)
  | log (text : String)
deriving DecidableEq

/-- The loaded classifier: `model.predict(X)[0]` on the one-row feature
matrix, as an oracle; `Except.error` models any exception raised inside the
`try` block around the prediction (including the indexing). -/
def Model : Type := ℚ → ℚ → Except String ℚ

/-- The `userdata` dict attached by `create_mqtt_client`;
`userdata.get("model")` yields `none` when the entry is absent or `None`. -/
structure Userdata where
  model : Option Model

/-- `build_features`: the single-row feature matrix with the two fields in
fixed column order (temperature first, vibration second). -/
def build_features (temperature vibration : ℚ) : ℚ × ℚ := (temperature, vibration)

/-- The `on_message` callback.  `loads` is the oracle for
`msg.payload.decode("utf-8")` followed by `json.loads` (both inside one
`try`).  Returns the printed lines in order, paired with the trace of
feature rows passed to `model.predict`. -/
def on_message (userdata : Userdata) (payload : List ℕ)
    (loads : List ℕ → Except String Json) : List OutLine × List (ℚ × ℚ) :=
  match userdata.model with
  | none => ([.log "Model not found in userdata; cannot run inference."], [])
  | some model =>
    match loads payload with
    | .error exc => ([.log ("Failed to decode/parse message: " ++ exc)], [])
    | .ok data =>
      match extractField data "temperature" with
      | .error exc => ([.log ("Missing or invalid fields in payload: " ++ exc)], [])
      | .ok temperature =>
        match extractField data "vibration" with
        | .error exc => ([.log ("Missing or invalid fields in payload: " ++ exc)], [])
        | .ok vibration =>
          let X := build_features temperature vibration
          match model X.1 X.2 with
          | .error exc => ([.log ("Model prediction failed: " ++ exc)], [X])
          | .ok prediction =>
            if pyInt prediction = 1 then
              ([.alert true (anomalyText temperature vibration)], [X])
            else
              ([.alert false (normalText temperature vibration)], [X])

def isAlertOut : OutLine → Bool
  | .alert _ _ => true
  | .log _ => false

/-- The styled alert lines among a handler result's printed lines. -/
def alerts (r : List OutLine × List (ℚ × ℚ)) : List OutLine := r.1.filter isAlertOut

/-- Styling of a printed line: `some b` for an alert line (`b` = anomalous),
`none` for a diagnostic log line. -/
def outKind : OutLine → Option Bool
  | .alert b _ => some b
  | .log _ => none

/-- Run the handler on a payload whose decode+parse yields `j`. -/
def runParsed (u : Userdata) (j : Json) : List OutLine × List (ℚ × ℚ) :=
  on_message u [] (fun _ => .ok j)

/-! ### Substring containment (for the alert-content properties) -/

def hasPref : List Char → List Char → Bool
  | [], _ => true
  | _ :: _, [] => false
  | a :: as, b :: bs => a == b && hasPref as bs

def occursAt : List Char → List Char → Bool
  | pat, [] => pat.isEmpty
  | pat, c :: rest => hasPref pat (c :: rest) || occursAt pat rest

def containsSub (s pat : String) : Bool := occursAt pat.data s.data

/-! ### The synthetic data generator (`generate_historical_data.py`) -/

namespace Generator

def n_rows : ℕ := 10000

def machine_id : String := "NC_Machine_AC"

/-- `anomaly_count = int(round(n_rows * 0.05))`. -/
def anomaly_count : ℕ := (pyRound ((n_rows : ℚ) * (5 / 100))).toNat

/-- The random draws the generator consumes: the sampled anomaly index list
of `rng.choice(n_rows, size=anomaly_count, replace=False)` and the value
streams of the two per-class distributions (`rng.normal(68,3)` /
`rng.normal(1.8,0.3)` for normal rows, `rng.uniform(80,100)` /
`rng.uniform(3,5)` for anomalous rows). -/
structure Rng where
  anomaly_idx : List ℕ
  normal_temp : ℕ → ℚ
  normal_vib : ℕ → ℚ
  anom_temp : ℕ → ℚ
  anom_vib : ℕ → ℚ

/-- Contract of `rng.choice(n_rows, size=anomaly_count, replace=False)`:
distinct indices, of the configured size, all within range. -/
def ValidChoice (r : Rng) : Prop :=
  r.anomaly_idx.Nodup ∧ r.anomaly_idx.length = anomaly_count ∧
    ∀ i ∈ r.anomaly_idx, i < n_rows

/-- `is_anomaly[anomaly_idx] = 1` over the zero-initialised label array. -/
def is_anomaly (r : Rng) (i : ℕ) : ℕ := if i ∈ r.anomaly_idx then 1 else 0

/-- Position of row `i` among the rows not selected as anomalous — the draw
of the normal-distribution stream that `temperature[normal_mask] = ...`
assigns to it. -/
def normalRank (idx : List ℕ) (i : ℕ) : ℕ :=
  ((List.range i).filter (fun j => decide (j ∉ idx))).length

/-- Position of row `i` in the anomaly index list — the draw of the uniform
stream that `temperature[anomaly_idx] = ...` assigns to it. -/
def anomRank (idx : List ℕ) (i : ℕ) : ℕ := idx.findIdx (fun j => j == i)

/-- The temperature column: normal rows get normal-distribution draws, the
rows of `anomaly_idx` get uniform `[80,100)` draws. -/
def temperature (r : Rng) (i : ℕ) : ℚ :=
  if i ∈ r.anomaly_idx then r.anom_temp (anomRank r.anomaly_idx i)
  else r.normal_temp (normalRank r.anomaly_idx i)

/-- The vibration column before the clamp. -/
def vibration_raw (r : Rng) (i : ℕ) : ℚ :=
  if i ∈ r.anomaly_idx then r.anom_vib (anomRank r.anomaly_idx i)
  else r.normal_vib (normalRank r.anomaly_idx i)

/-- `vibration = np.clip(vibration, a_min=0.0, a_max=None)`, applied to the
whole column after sampling. -/
def vibration (r : Rng) (i : ℕ) : ℚ := max 0 (vibration_raw r i)

/-- Timestamps in minutes: `end_ts` is the anchor (generation time truncated
to the minute), `start_ts = end_ts - (n_rows - 1)` minutes, and
`pd.date_range(start_ts, periods=n_rows, freq="1min")` yields
`start_ts + i` for row `i`. -/
def timestamp (end_ts : ℤ) (i : ℕ) : ℤ := (end_ts - ((n_rows : ℤ) - 1)) + (i : ℤ)

/-- One row of the assembled DataFrame. -/
structure Row where
  timestamp : ℤ
  machineId : String
  temperature : ℚ
  vibration : ℚ
  is_anomaly : ℕ
deriving DecidableEq

def rowAt (end_ts : ℤ) (r : Rng) (i : ℕ) : Row :=
  ⟨timestamp end_ts i, machine_id, temperature r i, vibration r i, is_anomaly r i⟩

/-- The generated dataset: one row per index of `range(n_rows)`. -/
def dataset (end_ts : ℤ) (r : Rng) : List Row :=
  (List.range n_rows).map (rowAt end_ts r)

end Generator

/-! ### Concrete instances used by witnesses -/

def stubOne : Model := fun _ _ => .ok 1

def stubZero : Model := fun _ _ => .ok 0

def stubFail : Model := fun _ _ => .error "boom"

/-- The parsed payload of the anomalous test scenario:
`{"temperature": 95.0, "vibration": 4.2}`. -/
def payloadHot : Json := .jobj [("temperature", .jnum 95), ("vibration", .jnum (21/5))]

/-- The parsed payload of the normal test scenario:
`{"temperature": 68.0, "vibration": 1.8}`. -/
def payloadCool : Json := .jobj [("temperature", .jnum 68), ("vibration", .jnum (9/5))]

/-- A draw assignment marking row 0 anomalous, with constant value streams
inside the distributions' supports. -/
def rW : Generator.Rng := ⟨[0], fun _ => 68, fun _ => 9/5, fun _ => 90, fun _ => 4⟩

/-- A draw assignment whose anomaly index list is `range 500` — a valid
without-replacement sample of the configured size. -/
def rValid : Generator.Rng := ⟨List.range 500, fun _ => 68, fun _ => 9/5, fun _ => 90, fun _ => 4⟩

/-! ### Theorems

`Rat.mul`/`Rat.add`/`Rat.sub`/`Rat.inv`/`Rat.ofScientific` are
`@[irreducible]` in Batteries, which blocks `decide` on concrete rational
computations; we restore kernel-visible reducibility locally. -/

section ClaimProofs

attribute [local semireducible] Rat.mul Rat.add Rat.sub Rat.inv Rat.ofScientific

/-- Helper: the `i`-th row of the generated dataset. -/
theorem Generator.get_dataset (end_ts : ℤ) (r : Rng) (i : ℕ)
    (h : i < (dataset end_ts r).length) :
    (dataset end_ts r).get ⟨i, h⟩ = rowAt end_ts r i := by
  simp [dataset, List.get_eq_getElem, List.getElem_map, List.getElem_range]

/-- Claim C1, counterexample: the claim interprets the prediction coercion
with round-to-nearest-int semantics, but the source's `int(prediction)`
truncates toward zero.  With a classifier returning the scalar 0.9, the
round-to-nearest coercion equals 1 (so the claim calls the reading
anomalous), yet the handler prints the normal-styled line. -/
theorem C1_roundNearest_counterexample :
    specRoundNearest (9/10) = 1 ∧
    ((on_message ⟨some (fun _ _ => .ok (9/10))⟩ []
        (fun _ => .ok payloadHot)).1).map outKind = [some false] := by
  constructor
  · decide
  · decide

/-- Claim C1 (amended): for every message whose payload decodes, parses and
yields both numeric fields, the handler invokes the classifier's prediction
exactly once, on the two extracted features in fixed order, and treats the
reading as anomalous exactly when the scalar prediction coerced with
truncation-toward-zero semantics (Python `int()`) equals 1; every other
coerced value yields the normal-styled output. -/
theorem C1_truncating_coercion (m : Model) (payload : List ℕ)
    (loads : List ℕ → Except String Json) (j : Json) (t v p : ℚ)
    (hp : loads payload = .ok j)
    (ht : extractField j "temperature" = .ok t)
    (hv : extractField j "vibration" = .ok v)
    (hm : m t v = .ok p) :
    (on_message ⟨some m⟩ payload loads).2 = [(t, v)] ∧
    (on_message ⟨some m⟩ payload loads).1 =
      [if pyInt p = 1 then .alert true (anomalyText t v)
       else .alert false (normalText t v)] := by
  simp only [on_message, hp, ht, hv, build_features, hm]
  constructor
  · split <;> rfl
  · split <;> simp_all

/-- Witness for C1: the concrete anomalous scenario instantiating the
amended theorem. -/
theorem C1_truncating_coercion_witness :
    (on_message ⟨some stubOne⟩ [] (fun _ => .ok payloadHot)).2 = [(95, 21/5)] ∧
    (on_message ⟨some stubOne⟩ [] (fun _ => .ok payloadHot)).1 =
      [if pyInt 1 = 1 then .alert true (anomalyText 95 (21/5))
       else .alert false (normalText 95 (21/5))] :=
  C1_truncating_coercion stubOne [] (fun _ => .ok payloadHot) payloadHot 95 (21/5) 1
    rfl (by decide) (by decide) rfl

/-- Claim C2: for the payload `{"temperature": 95.0, "vibration": 4.2}` with
a classifier returning 1, the handler emits exactly one anomaly-styled alert
line containing `95.00` and `4.20`; for `{"temperature": 68.0, "vibration":
1.8}` with a classifier returning 0, exactly one normal-styled line
containing `68.00` and `1.80`. -/
theorem C2_concrete_alert_lines :
    (runParsed ⟨some stubOne⟩ payloadHot).1 = [.alert true (anomalyText 95 (21/5))] ∧
    containsSub (anomalyText 95 (21/5)) "95.00" = true ∧
    containsSub (anomalyText 95 (21/5)) "4.20" = true ∧
    (runParsed ⟨some stubZero⟩ payloadCool).1 = [.alert false (normalText 68 (9/5))] ∧
    containsSub (normalText 68 (9/5)) "68.00" = true ∧
    containsSub (normalText 68 (9/5)) "1.80" = true := by
  refine ⟨by decide, by decide, by decide, by decide, by decide, by decide⟩

/-- Claim C3: a message whose payload fails to decode/parse as UTF-8 JSON,
or whose parsed object lacks `temperature` or `vibration`, or whose fields
do not coerce to numbers, produces zero alert lines and no classifier
invocation; the embedded handler is a total function (no exception escapes)
and threads no state, so subsequent messages are unaffected. -/
theorem C3_malformed_payload_dropped (u : Userdata) (payload : List ℕ)
    (loads : List ℕ → Except String Json)
    (h : (∃ e, loads payload = .error e) ∨
      ∃ j, loads payload = .ok j ∧
        ((∃ e, extractField j "temperature" = .error e) ∨
         ∃ t, extractField j "temperature" = .ok t ∧
           ∃ e, extractField j "vibration" = .error e)) :
    alerts (on_message u payload loads) = [] ∧ (on_message u payload loads).2 = [] := by
  obtain ⟨mo⟩ := u
  cases mo with
  | none => exact ⟨rfl, rfl⟩
  | some m =>
    rcases h with ⟨e, he⟩ | ⟨j, hj, ⟨e, he⟩ | ⟨t, ht, e, he⟩⟩
    · simp [on_message, alerts, isAlertOut, he]
    · simp [on_message, alerts, isAlertOut, hj, he]
    · simp [on_message, alerts, isAlertOut, hj, ht, he]

/-- Witness for C3: a payload whose decode/parse fails. -/
theorem C3_malformed_payload_dropped_witness :
    alerts (on_message ⟨some stubOne⟩ [] (fun _ => .error "bad")) = [] ∧
    (on_message ⟨some stubOne⟩ [] (fun _ => .error "bad")).2 = [] :=
  C3_malformed_payload_dropped ⟨some stubOne⟩ [] (fun _ => .error "bad")
    (Or.inl ⟨"bad", rfl⟩)

/-- Claim C4: when the classifier's predict operation raises, the handler
logs the failure, produces no alert line, and returns normally. -/
theorem C4_predict_failure_logged (m : Model) (payload : List ℕ)
    (loads : List ℕ → Except String Json) (j : Json) (t v : ℚ) (e : String)
    (hp : loads payload = .ok j)
    (ht : extractField j "temperature" = .ok t)
    (hv : extractField j "vibration" = .ok v)
    (hm : m t v = .error e) :
    (on_message ⟨some m⟩ payload loads).1 =
      [.log ("Model prediction failed: " ++ e)] ∧
    alerts (on_message ⟨some m⟩ payload loads) = [] := by
  simp [on_message, alerts, isAlertOut, hp, ht, hv, hm, build_features]

/-- Witness for C4: a stub classifier that raises on predict. -/
theorem C4_predict_failure_logged_witness :
    (on_message ⟨some stubFail⟩ [] (fun _ => .ok payloadHot)).1 =
      [.log ("Model prediction failed: " ++ "boom")] ∧
    alerts (on_message ⟨some stubFail⟩ [] (fun _ => .ok payloadHot)) = [] :=
  C4_predict_failure_logged stubFail [] (fun _ => .ok payloadHot) payloadHot
    95 (21/5) "boom" rfl (by decide) (by decide) rfl

/-- Claim C5: whenever the anomaly index draw satisfies the contract of
`rng.choice(n_rows, size=anomaly_count, replace=False)` (distinct in-range
indices of the configured size), the generated dataset has exactly
`anomaly_count = round(10000 * 0.05) = 500` rows labeled 1. -/
theorem C5_anomaly_row_count (end_ts : ℤ) (r : Generator.Rng)
    (h : Generator.ValidChoice r) :
    (Generator.dataset end_ts r).countP (fun row => row.is_anomaly == 1) =
      Generator.anomaly_count ∧
    Generator.anomaly_count = 500 := by
  obtain ⟨hnd, hlen, hmem⟩ := h
  constructor
  · rw [Generator.dataset, List.countP_map]
    have hcomp : ((fun row => row.is_anomaly == 1) ∘ Generator.rowAt end_ts r) =
        fun i => decide (i ∈ r.anomaly_idx) := by
      funext i
      by_cases hi : i ∈ r.anomaly_idx <;>
        simp [Generator.rowAt, Generator.is_anomaly, hi]
    rw [hcomp, List.countP_eq_length_filter]
    have hperm : List.Perm
        ((List.range Generator.n_rows).filter (fun i => decide (i ∈ r.anomaly_idx)))
        r.anomaly_idx := by
      refine (List.perm_ext_iff_of_nodup ((List.nodup_range _).filter _) hnd).mpr ?_
      intro a
      simp only [List.mem_filter, List.mem_range, decide_eq_true_eq]
      exact ⟨fun ha => ha.2, fun ha => ⟨hmem a ha, ha⟩⟩
    rw [hperm.length_eq, hlen]
  · decide

set_option maxRecDepth 10000 in
/-- Witness for C5: the anomaly index list `range 500`. -/
theorem C5_anomaly_row_count_witness :
    (Generator.dataset 0 rValid).countP (fun row => row.is_anomaly == 1) =
      Generator.anomaly_count ∧
    Generator.anomaly_count = 500 :=
  C5_anomaly_row_count 0 rValid (by
    refine ⟨?_, ?_, fun i hi => ?_⟩
    · show (List.range 500).Nodup
      exact List.nodup_range _
    · show (List.range 500).length = Generator.anomaly_count
      rw [List.length_range]
      decide
    · have h500 := List.mem_range.mp (show i ∈ List.range 500 from hi)
      simp only [Generator.n_rows]
      omega)

/-- Claim C6: whenever the uniform draws respect their supports
(`rng.uniform(80,100)` and `rng.uniform(3,5)`), every generated row labeled
1 has temperature in [80,100] and vibration in [3,5]. -/
theorem C6_anomalous_value_ranges (end_ts : ℤ) (r : Generator.Rng)
    (htemp : ∀ k, 80 ≤ r.anom_temp k ∧ r.anom_temp k ≤ 100)
    (hvib : ∀ k, 3 ≤ r.anom_vib k ∧ r.anom_vib k ≤ 5)
    (row : Generator.Row) (hrow : row ∈ Generator.dataset end_ts r)
    (hlab : row.is_anomaly = 1) :
    (80 ≤ row.temperature ∧ row.temperature ≤ 100) ∧
    (3 ≤ row.vibration ∧ row.vibration ≤ 5) := by
  obtain ⟨i, hi, rfl⟩ := List.mem_map.mp hrow
  have hmem : i ∈ r.anomaly_idx := by
    by_contra hni
    simp [Generator.rowAt, Generator.is_anomaly, hni] at hlab
  constructor
  · simpa [Generator.rowAt, Generator.temperature, hmem] using
      htemp (Generator.anomRank r.anomaly_idx i)
  · have h3 := hvib (Generator.anomRank r.anomaly_idx i)
    simp only [Generator.rowAt, Generator.vibration, Generator.vibration_raw, hmem, if_true]
    exact ⟨le_trans h3.1 (le_max_right _ _), max_le (by norm_num) h3.2⟩

/-- Witness for C6: row 0 is anomalous under `rW`, with constant in-range
uniform draws. -/
theorem C6_anomalous_value_ranges_witness :
    (80 ≤ (Generator.rowAt 0 rW 0).temperature ∧
      (Generator.rowAt 0 rW 0).temperature ≤ 100) ∧
    (3 ≤ (Generator.rowAt 0 rW 0).vibration ∧
      (Generator.rowAt 0 rW 0).vibration ≤ 5) :=
  C6_anomalous_value_ranges 0 rW
    (fun _ => by constructor <;> norm_num [rW])
    (fun _ => by constructor <;> norm_num [rW])
    (Generator.rowAt 0 rW 0)
    (List.mem_map_of_mem (Generator.rowAt 0 rW)
      (List.mem_range.mpr (by norm_num [Generator.n_rows])))
    (by decide)

/-- Claim C7: the generated dataset has exactly 10,000 rows, consecutive
timestamps differ by exactly one minute (hence are strictly increasing with
constant spacing), and the last timestamp equals the anchor `end_ts`
(generation time truncated to the minute). -/
theorem C7_timestamps (end_ts : ℤ) (r : Generator.Rng) :
    (Generator.dataset end_ts r).length = 10000 ∧
    (∀ i (h : i + 1 < (Generator.dataset end_ts r).length),
      ((Generator.dataset end_ts r).get ⟨i, by omega⟩).timestamp + 1 =
        ((Generator.dataset end_ts r).get ⟨i + 1, h⟩).timestamp) ∧
    ∀ h : 9999 < (Generator.dataset end_ts r).length,
      ((Generator.dataset end_ts r).get ⟨9999, h⟩).timestamp = end_ts := by
  refine ⟨by simp [Generator.dataset, Generator.n_rows], fun i h => ?_, fun h => ?_⟩
  · rw [Generator.get_dataset, Generator.get_dataset]
    simp only [Generator.rowAt, Generator.timestamp]
    push_cast
    ring
  · rw [Generator.get_dataset]
    simp only [Generator.rowAt, Generator.timestamp, Generator.n_rows]
    norm_num

/-- Witness for C7: adjacent-row spacing and the final anchor row at the
concrete dataset over `rW`. -/
theorem C7_timestamps_witness :
    ((Generator.dataset 0 rW).get
        ⟨0, by simp [Generator.dataset, Generator.n_rows]⟩).timestamp + 1 =
      ((Generator.dataset 0 rW).get
        ⟨1, by simp [Generator.dataset, Generator.n_rows]⟩).timestamp ∧
    ((Generator.dataset 0 rW).get
        ⟨9999, by simp [Generator.dataset, Generator.n_rows]⟩).timestamp = 0 :=
  ⟨(C7_timestamps 0 rW).2.1 0 (by simp [Generator.dataset, Generator.n_rows]),
   (C7_timestamps 0 rW).2.2 (by simp [Generator.dataset, Generator.n_rows])⟩

/-- Claim C8: every vibration value of every generated row is non-negative
— the clamp `np.clip(vibration, 0, None)` is applied to the whole column
after sampling, for both classes. -/
theorem C8_vibration_clamped_nonneg (end_ts : ℤ) (r : Generator.Rng)
    (row : Generator.Row) (hrow : row ∈ Generator.dataset end_ts r) :
    0 ≤ row.vibration := by
  obtain ⟨i, hi, rfl⟩ := List.mem_map.mp hrow
  simp [Generator.rowAt, Generator.vibration]

/-- Witness for C8: row 0 of the concrete dataset over `rW`. -/
theorem C8_vibration_clamped_nonneg_witness :
    0 ≤ (Generator.rowAt 0 rW 0).vibration :=
  C8_vibration_clamped_nonneg 0 rW (Generator.rowAt 0 rW 0)
    (List.mem_map_of_mem (Generator.rowAt 0 rW)
      (List.mem_range.mpr (by norm_num [Generator.n_rows])))

/-- Claim C9: when the userdata carries no loaded classifier
(`userdata.get("model")` is `None`), the handler prints exactly its
diagnostic log line, produces no alert, invokes no prediction, and its
behaviour is independent of the payload and of the decode/parse oracle
(it returns before touching the payload); as a total Lean function it
raises nothing. -/
theorem C9_missing_model_guard :
    ∀ (p1 p2 : List ℕ) (l1 l2 : List ℕ → Except String Json),
      on_message ⟨none⟩ p1 l1 = on_message ⟨none⟩ p2 l2 ∧
      (on_message ⟨none⟩ p1 l1).1 =
        [.log "Model not found in userdata; cannot run inference."] ∧
      alerts (on_message ⟨none⟩ p1 l1) = [] ∧
      (on_message ⟨none⟩ p1 l1).2 = [] :=
  fun _ _ _ _ => ⟨rfl, rfl, rfl, rfl⟩

/-- Claim C10: fields that are present but are not JSON numbers — numeric
strings, booleans, or any other value accepted by `float()` — are not
dropped: the handler behaves exactly as it would on the coerced numeric
values, and (when the classifier succeeds) produces exactly one alert
line. -/
theorem C10_float_coercible_fields (m : Model) (vt vv : Json) (t v : ℚ)
    (ht : pyFloat vt = .ok t) (hv : pyFloat vv = .ok v) :
    runParsed ⟨some m⟩ (.jobj [("temperature", vt), ("vibration", vv)]) =
      runParsed ⟨some m⟩ (.jobj [("temperature", .jnum t), ("vibration", .jnum v)]) ∧
    ∀ p, m t v = .ok p →
      (alerts (runParsed ⟨some m⟩
        (.jobj [("temperature", vt), ("vibration", vv)]))).length = 1 := by
  have h1 : ∀ x y : Json,
      jsonIndex (.jobj [("temperature", x), ("vibration", y)]) "temperature" = .ok x :=
    fun x y => rfl
  have h2 : ∀ x y : Json,
      jsonIndex (.jobj [("temperature", x), ("vibration", y)]) "vibration" = .ok y :=
    fun x y => rfl
  have hnum : ∀ q : ℚ, pyFloat (.jnum q) = .ok q := fun _ => rfl
  constructor
  · simp only [runParsed, on_message, extractField, h1, h2, ht, hv, hnum]
  · intro p hp
    simp only [runParsed, on_message, extractField, h1, h2, ht, hv, hnum]
    dsimp only [build_features]
    rw [hp]
    split
    · simp_all
    · split <;> simp [alerts, isAlertOut]

/-- Witness for C10: a numeric-string temperature and a boolean vibration. -/
theorem C10_float_coercible_fields_witness :
    (runParsed ⟨some stubOne⟩
        (.jobj [("temperature", .jstr "95.0"), ("vibration", .jbool true)]) =
      runParsed ⟨some stubOne⟩
        (.jobj [("temperature", .jnum 95), ("vibration", .jnum 1)])) ∧
    (alerts (runParsed ⟨some stubOne⟩
        (.jobj [("temperature", .jstr "95.0"), ("vibration", .jbool true)]))).length = 1 :=
  have h := C10_float_coercible_fields stubOne (.jstr "95.0") (.jbool true) 95 1
    (by decide) (by decide)
  ⟨h.1, h.2 1 rfl⟩

end ClaimProofs
